import Mathlib

/-!
Shallow embedding of the MovieNight daily-cycle core: the cycle state machine and
participation operations (src/hooks/useDailyCycle.ts), the two winner calculators
(useDailyCycle.ts and the RevealScreen component), the schedule calculator
(DashboardScreen.tsx) and the vote-submission validation (VotingScreen.tsx).

JavaScript objects used as maps (decisions, nominations, votes) are embedded as
association lists `List (String × β)`; `Object.entries`, `Object.values` and
`Object.keys` become the list itself, its values and its keys.  A Firestore
`updateDoc` with a dotted key `decisions.<uid>` is embedded as `setKey`, which
replaces the entry at the key (or appends a fresh one), leaving all other
fields of the document untouched.  `[...new Set(l)]` is embedded as `dedupFirst`
(first-occurrence deduplication, the JS `Set` iteration order); where only the
set's size is observed (the duplicate-vote check) `List.dedup` is used instead,
which has the same length.  Empty pick slots are the empty string, matching the
JS falsiness checks.  `Array.prototype.sort(cmp)` is embedded as
`List.insertionSort` over the total preorder `cmp a b ≤ 0`.
-/

inductive CycleStatus where
  | WAITING_FOR_DECISIONS
  | GATHERING_NOMINATIONS
  | GATHERING_VOTES
  | REVEAL
  | DASHBOARD_VIEW
  deriving DecidableEq

/-- A vote record `{top_pick, second_pick, third_pick}`; an empty string is an
unfilled slot (the JS code stores the empty string and tests truthiness). -/
structure Vote where
  top_pick : String
  second_pick : String
  third_pick : String
  deriving DecidableEq

/-- The `{movie_id, score}` shape produced by `calculateWinner` and stored in
`winning_movie`. -/
structure WinningMovie where
  movie_id : String
  score : Nat
  deriving DecidableEq

/-- `schedule_settings.finish_by_time`, an "HH:MM" string in the source, embedded
as the parsed hour/minute pair produced by `finishTime.split(':').map(Number)`. -/
structure ScheduleSettings where
  finish_by_hour : Nat
  finish_by_min : Nat
  deriving DecidableEq

/-- The fields of a shared-pool movie record that the core logic reads. -/
structure SharedMovie where
  id : String
  runtime : Nat
  nomination_streak : Nat
  deriving DecidableEq

/-- The DailyCycle document. -/
structure DailyCycle where
  current_status : CycleStatus
  decisions : List (String × Bool)
  nominations : List (String × List String)
  votes : List (String × Vote)
  winning_movie : Option WinningMovie
  schedule_settings : ScheduleSettings
  created_at : Nat
  deriving DecidableEq

/-- Lookup in an association list (reading `obj[key]`). -/
def getKey {β : Type} : List (String × β) → String → Option β
  | [], _ => none
  | (k, v) :: rest, key => if k = key then some v else getKey rest key

/-- Firestore `updateDoc` with a dotted map key: replace the entry at `key`
if present (last write wins), otherwise create it; every other entry and every
other document field is untouched. -/
def setKey {β : Type} : List (String × β) → String → β → List (String × β)
  | [], key, v => [(key, v)]
  | (k, w) :: rest, key, v =>
    if k = key then (key, v) :: rest else (k, w) :: setKey rest key v

/-- `[...new Set(l)]`: first-occurrence deduplication in JS `Set` order. -/
def dedupFirst (l : List String) : List String :=
  l.foldl (fun acc x => if x ∈ acc then acc else acc ++ [x]) []

/-- `Object.values(cycle.nominations).flat()`. -/
def allNominations (noms : List (String × List String)) : List String :=
  (noms.map Prod.snd).flatten

/-- `uniqueMovieIds = [...new Set(allNominations)]`. -/
def candidateIds (noms : List (String × List String)) : List String :=
  dedupFirst (allNominations noms)

/-- `sharedMovies.find(m => m.id === movieId)`. -/
def findMovie (pool : List SharedMovie) (movieId : String) : Option SharedMovie :=
  pool.find? (fun m => m.id == movieId)

/-- The contribution of one vote record to the score of movie `m`:
`if (vote.top_pick) scores[vote.top_pick] += 3` adds 3 at key `m` exactly when
the slot is non-empty (truthy) and names `m`; likewise 2 and 1 for the other
slots. -/
def voteScore (v : Vote) (m : String) : Nat :=
  (if v.top_pick ≠ ("") ∧ v.top_pick = m then 3 else 0) +
  (if v.second_pick ≠ ("") ∧ v.second_pick = m then 2 else 0) +
  (if v.third_pick ≠ ("") ∧ v.third_pick = m then 1 else 0)

/-- The 3/2/1 ranked-pick tally of movie `m` over all vote records (the
`Object.values(cycle.votes).forEach` loop shared by both winner calculators). -/
def baseScore (votes : List (String × Vote)) (m : String) : Nat :=
  (votes.map (fun p => voteScore p.2 m)).sum

/-- Number of non-empty pick slots, across all voters, that name movie `m`
(the quantity the underdog-boost claim is stated in terms of). -/
def namedSlotCount (votes : List (String × Vote)) (m : String) : Nat :=
  (votes.map (fun p =>
    (if p.2.top_pick ≠ ("") ∧ p.2.top_pick = m then 1 else 0) +
    (if p.2.second_pick ≠ ("") ∧ p.2.second_pick = m then 1 else 0) +
    (if p.2.third_pick ≠ ("") ∧ p.2.third_pick = m then 1 else 0))).sum

namespace UseDailyCycle

/-- `yesDecisions = decisions.filter(([_, decision]) => decision === true)`,
counted. -/
def yesCount (c : DailyCycle) : Nat :=
  (c.decisions.filter (fun p => p.2)).length

/-- The comparator `(a, b) => b.score - a.score` of `calculateWinner` in
useDailyCycle.ts, as the total preorder `cmp a b ≤ 0`. -/
def winnerLe (a b : WinningMovie) : Prop :=
  (b.score : Int) - (a.score : Int) ≤ 0

instance : DecidableRel winnerLe := fun _ _ => Int.decLe _ _

/-- `calculateWinner` from useDailyCycle.ts: score every nominated candidate by
the 3/2/1 tally, sort by score descending, return the top entry or null. -/
def calculateWinner (c : DailyCycle) : Option WinningMovie :=
  ((candidateIds c.nominations).map
      (fun movieId => ({ movie_id := movieId, score := baseScore c.votes movieId } : WinningMovie))
    |> List.insertionSort winnerLe).head?

/-- The partial update a call to `checkAndAdvanceStatus` performs: either a
bare `current_status` write, or (on the REVEAL transition) a single update
carrying both `current_status` and `winning_movie`. -/
inductive AdvanceWrite where
  | statusOnly (s : CycleStatus)
  | statusAndWinner (s : CycleStatus) (w : Option WinningMovie)
  deriving DecidableEq

/-- `checkAndAdvanceStatus` from useDailyCycle.ts, as the update it writes (or
`none` for a no-op).  The REVEAL→DASHBOARD_VIEW timer is a separate delayed
side effect and not part of this check. -/
def checkAndAdvanceStatus (c : DailyCycle) : Option AdvanceWrite :=
  match c.current_status with
  | .WAITING_FOR_DECISIONS =>
    if (2 ≤ yesCount c ∧ 3 ≤ c.decisions.length) ∨
        (3 ≤ c.decisions.length ∧ 1 ≤ yesCount c) then
      if 2 ≤ yesCount c then
        some (.statusOnly .GATHERING_NOMINATIONS)
      else
        none
    else none
  | .GATHERING_NOMINATIONS =>
    if 0 < yesCount c ∧ yesCount c ≤ c.nominations.length then
      some (.statusOnly .GATHERING_VOTES)
    else none
  | .GATHERING_VOTES =>
    if 0 < yesCount c ∧ yesCount c ≤ c.votes.length then
      some (.statusAndWinner .REVEAL (calculateWinner c))
    else none
  | .REVEAL => none
  | .DASHBOARD_VIEW => none

/-- `makeDecision`: `updateDoc(ref, { ['decisions.' + userId]: decision })`. -/
def makeDecision (userId : String) (decision : Bool) (c : DailyCycle) : DailyCycle :=
  { c with decisions := setKey c.decisions userId decision }

/-- `submitNominations`: `updateDoc(ref, { ['nominations.' + userId]: movieIds })`. -/
def submitNominations (userId : String) (movieIds : List String) (c : DailyCycle) : DailyCycle :=
  { c with nominations := setKey c.nominations userId movieIds }

/-- `submitVote`: `updateDoc(ref, { ['votes.' + userId]: votes })`. -/
def submitVote (userId : String) (votes : Vote) (c : DailyCycle) : DailyCycle :=
  { c with votes := setKey c.votes userId votes }

end UseDailyCycle

/-- An element of the RevealScreen ranking: `{id, score, movie}` after the
`filter(item => item.movie)` step, so the movie record is always present. -/
structure RankedItem where
  movie_id : String
  score : Nat
  movie : SharedMovie
  deriving DecidableEq

/-- The RevealScreen comparator: score descending, then
`(a.movie?.runtime || 0) - (b.movie?.runtime || 0)` ascending. -/
def rsCmp (a b : RankedItem) : Int :=
  if a.score ≠ b.score then (b.score : Int) - (a.score : Int)
  else (a.movie.runtime : Int) - (b.movie.runtime : Int)

/-- The total preorder `rsCmp a b ≤ 0` induced by the RevealScreen comparator. -/
def rsLe (a b : RankedItem) : Prop := rsCmp a b ≤ 0

instance : DecidableRel rsLe := fun _ _ => Int.decLe _ _

instance : IsTotal RankedItem rsLe := by
  constructor
  intro a b
  unfold rsLe rsCmp
  split_ifs <;> omega

instance : IsTrans RankedItem rsLe := by
  constructor
  intro a b c hab hbc
  unfold rsLe rsCmp at hab hbc ⊢
  split_ifs at hab hbc ⊢ <;> omega

namespace RevealScreen

/-- The underdog-boost loop body for movie `m`: one point per pick slot whose
value equals `m`, over all vote records (note the source compares slots with
`===` here, with no truthiness guard). -/
def boost (votes : List (String × Vote)) (m : String) : Nat :=
  (votes.map (fun p =>
    (if p.2.top_pick = m then 1 else 0) +
    (if p.2.second_pick = m then 1 else 0) +
    (if p.2.third_pick = m then 1 else 0))).sum

/-- The final score of movie `m` in the RevealScreen calculator: the 3/2/1
tally, plus the underdog boost when the movie resolves in the shared pool with
`nomination_streak >= 5`. -/
def finalScore (pool : List SharedMovie) (votes : List (String × Vote)) (m : String) : Nat :=
  baseScore votes m +
    (match findMovie pool m with
     | some mov => if 5 ≤ mov.nomination_streak then boost votes m else 0
     | none => 0)

/-- `uniqueMovieIds.map(id => ({id, score, movie})).filter(item => item.movie)`:
the resolvable candidates with their scores and movie records. -/
def items (noms : List (String × List String)) (votes : List (String × Vote))
    (pool : List SharedMovie) : List RankedItem :=
  (candidateIds noms).filterMap (fun movieId =>
    (findMovie pool movieId).map
      (fun mov => ({ movie_id := movieId, score := finalScore pool votes movieId,
                     movie := mov } : RankedItem)))

/-- `sortedMovies` in the RevealScreen calculator. -/
def rankedCandidates (noms : List (String × List String)) (votes : List (String × Vote))
    (pool : List SharedMovie) : List RankedItem :=
  List.insertionSort rsLe (items noms votes pool)

/-- `calculateWinner` from RevealScreen: `sortedMovies[0]` (undefined when no
candidate resolves in the shared pool). -/
def calculateWinner (noms : List (String × List String)) (votes : List (String × Vote))
    (pool : List SharedMovie) : Option RankedItem :=
  (rankedCandidates noms votes pool).head?

end RevealScreen

/-- The schedule record returned by `calculateSchedule` (times in minutes from
the midnight of day 0; `today` is the day index of the current date). -/
structure ScheduleResult where
  startTime : Int
  finishTime : Int
  totalBreaks : Nat
  totalBreakTime : Nat
  totalRuntime : Nat
  deriving DecidableEq

namespace DashboardScreen

/-- `calculateSchedule` from DashboardScreen.tsx: null when no winning movie is
set; otherwise resolve the movie (default runtime 120 when missing from the
pool), insert one 15-minute break per full 40 minutes of runtime, place the
finish at today's `finish_by` clock time rolled to the next day when its hour
is before noon, and start the event earlier by the total duration. -/
def calculateSchedule (c : DailyCycle) (pool : List SharedMovie) (today : Nat) :
    Option ScheduleResult :=
  match c.winning_movie with
  | none => none
  | some w =>
    let runtime : Nat :=
      match findMovie pool w.movie_id with
      | some mov => mov.runtime
      | none => 120
    let numberOfBreaks := runtime / 40
    let totalBreakTime := numberOfBreaks * 15
    let totalEventDuration := runtime + totalBreakTime
    let finishHour := c.schedule_settings.finish_by_hour
    let finishMin := c.schedule_settings.finish_by_min
    let finishDay : Nat := if finishHour < 12 then today + 1 else today
    let finishDateTime : Int :=
      (finishDay : Int) * 1440 + (finishHour : Int) * 60 + (finishMin : Int)
    let startDateTime : Int := finishDateTime - (totalEventDuration : Int)
    some { startTime := startDateTime, finishTime := finishDateTime,
           totalBreaks := numberOfBreaks, totalBreakTime := totalBreakTime,
           totalRuntime := runtime }

end DashboardScreen

/-- Whether an `Except` result is an error (a rejected submission: nothing was
written). -/
def isErr {α : Type} : Except String α → Bool
  | .error _ => true
  | .ok _ => false

namespace VotingScreen

/-- `handleSubmitVote` from VotingScreen.tsx: require `min(3, nominatedCount)`
non-empty picks, reject duplicate picks (`new Set(voteValues).size !==
voteValues.length`), and only then call `submitVote` — validation runs before
any write. -/
def handleSubmitVote (nominatedCount : Nat) (userId : String) (votes : Vote)
    (c : DailyCycle) : Except String DailyCycle :=
  let requiredPicks := min 3 nominatedCount
  let currentPicks :=
    [votes.top_pick, votes.second_pick, votes.third_pick].filter (fun s => s != (""))
  if currentPicks.length < requiredPicks then
    Except.error ("Please select the required number of movies")
  else if currentPicks.dedup.length ≠ currentPicks.length then
    Except.error ("You cannot vote for the same movie multiple times")
  else
    Except.ok (UseDailyCycle.submitVote userId votes c)

end VotingScreen

/-! Concrete cycle documents and pools used to instantiate the theorems. -/

/-- Default schedule settings: `finish_by_time: '03:30'`. -/
def defaultSettings : ScheduleSettings := { finish_by_hour := 3, finish_by_min := 30 }

/-- A cycle waiting for decisions with two yes votes and one no vote. -/
def exCycleWaiting : DailyCycle :=
  { current_status := .WAITING_FOR_DECISIONS,
    decisions := [(("u1"), true), (("u2"), true), (("u3"), false)],
    nominations := [], votes := [], winning_movie := none,
    schedule_settings := defaultSettings, created_at := 0 }

/-- A cycle gathering nominations with zero yes-decisions and no nominations
(so the nominator count trivially reaches the yes-count). -/
def exCycleNomsZeroYes : DailyCycle :=
  { current_status := .GATHERING_NOMINATIONS,
    decisions := [(("u1"), false)],
    nominations := [], votes := [], winning_movie := none,
    schedule_settings := defaultSettings, created_at := 0 }

/-- A cycle gathering nominations where the single yes-voter has nominated. -/
def exCycleNoms : DailyCycle :=
  { current_status := .GATHERING_NOMINATIONS,
    decisions := [(("u1"), true)],
    nominations := [(("u1"), [("A")])], votes := [], winning_movie := none,
    schedule_settings := defaultSettings, created_at := 0 }

/-- A cycle gathering votes with zero yes-decisions and no votes (so the voter
count trivially reaches the yes-count). -/
def exCycleVotesZeroYes : DailyCycle :=
  { current_status := .GATHERING_VOTES,
    decisions := [(("u1"), false)],
    nominations := [], votes := [], winning_movie := none,
    schedule_settings := defaultSettings, created_at := 0 }

/-- A cycle gathering votes where the single yes-voter has voted. -/
def exCycleVotes : DailyCycle :=
  { current_status := .GATHERING_VOTES,
    decisions := [(("u1"), true)],
    nominations := [(("u1"), [("A")])],
    votes := [(("u1"), { top_pick := ("A"), second_pick := (""), third_pick := ("") })],
    winning_movie := none,
    schedule_settings := defaultSettings, created_at := 0 }

/-- Shared pool for the underdog-boost scenario: one movie with streak 5. -/
def exPoolStreak : List SharedMovie :=
  [{ id := ("C"), runtime := 100, nomination_streak := 5 }]

/-- Nominations for the underdog-boost scenario. -/
def exNomsStreak : List (String × List String) := [(("u1"), [("C")])]

/-- Votes for the underdog-boost scenario: exactly one top_pick vote for C. -/
def exVotesStreak : List (String × Vote) :=
  [(("u1"), { top_pick := ("C"), second_pick := (""), third_pick := ("") })]

/-- Shared pool for the runtime tie-break scenario: A is shorter than B. -/
def exPoolTie : List SharedMovie :=
  [{ id := ("A"), runtime := 90, nomination_streak := 0 },
   { id := ("B"), runtime := 120, nomination_streak := 0 }]

/-- Nominations for the tie-break scenario. -/
def exNomsTie : List (String × List String) := [(("u1"), [("A")]), (("u2"), [("B")])]

/-- Votes for the tie-break scenario: both candidates score 3 + 2 = 5. -/
def exVotesTie : List (String × Vote) :=
  [(("u1"), { top_pick := ("A"), second_pick := ("B"), third_pick := ("") }),
   (("u2"), { top_pick := ("B"), second_pick := ("A"), third_pick := ("") })]

/-- A cycle with a winning movie set, for the schedule scenario. -/
def exCycleSchedule : DailyCycle :=
  { current_status := .DASHBOARD_VIEW,
    decisions := [], nominations := [], votes := [],
    winning_movie := some { movie_id := ("W"), score := 5 },
    schedule_settings := defaultSettings, created_at := 0 }

/-- Pool for the schedule scenario: the winning movie runs 130 minutes. -/
def exPoolSchedule : List SharedMovie :=
  [{ id := ("W"), runtime := 130, nomination_streak := 0 }]

/-- A duplicate vote submission: the same movie in two slots. -/
def exDupVote : Vote := { top_pick := ("A"), second_pick := ("A"), third_pick := ("") }

/-- A distinct-picks vote used in the frame-property witness. -/
def exVoteABC : Vote := { top_pick := ("A"), second_pick := ("B"), third_pick := ("C") }

/-- A cycle with entries for users u1 and u2 in the three maps, for the
frame-property witness. -/
def exCycleMaps : DailyCycle :=
  { current_status := .GATHERING_VOTES,
    decisions := [(("u1"), true), (("u2"), true)],
    nominations := [(("u1"), [("A")]), (("u2"), [("B")])],
    votes := [(("u2"), { top_pick := ("B"), second_pick := (""), third_pick := ("") })],
    winning_movie := none,
    schedule_settings := defaultSettings, created_at := 0 }

/-! ## Helper lemmas -/

/-- Membership in the fold underlying `dedupFirst`. -/
theorem mem_dedupFirst_fold (l : List String) : ∀ (acc : List String) (a : String),
    (a ∈ l.foldl (fun acc x => if x ∈ acc then acc else acc ++ [x]) acc ↔
      a ∈ acc ∨ a ∈ l) := by
  induction l with
  | nil => intro acc a; simp
  | cons x xs ih =>
    intro acc a
    simp only [List.foldl_cons]
    by_cases hx : x ∈ acc
    · rw [if_pos hx, ih]
      constructor
      · rintro (h | h)
        · exact Or.inl h
        · exact Or.inr (List.mem_cons_of_mem x h)
      · rintro (h | h)
        · exact Or.inl h
        · rcases List.mem_cons.mp h with rfl | h2
          · exact Or.inl hx
          · exact Or.inr h2
    · rw [if_neg hx, ih]
      simp only [List.mem_append, List.mem_singleton, List.mem_cons]
      tauto

/-- `dedupFirst` has the same members as its input. -/
theorem mem_dedupFirst (l : List String) (a : String) : a ∈ dedupFirst l ↔ a ∈ l := by
  have h := mem_dedupFirst_fold l [] a
  simpa [dedupFirst] using h

/-- `dedupFirst` is empty exactly on the empty list. -/
theorem dedupFirst_eq_nil_iff (l : List String) : dedupFirst l = [] ↔ l = [] := by
  constructor
  · intro h
    rw [List.eq_nil_iff_forall_not_mem]
    intro a ha
    have hmem := (mem_dedupFirst l a).mpr ha
    rw [h] at hmem
    exact absurd hmem (List.not_mem_nil a)
  · intro h
    rw [h]
    rfl

/-- A sort by a decidable relation is empty exactly on the empty list. -/
theorem insertionSort_eq_nil_iff {α : Type} (r : α → α → Prop) [DecidableRel r]
    (l : List α) : List.insertionSort r l = [] ↔ l = [] := by
  constructor
  · intro h
    have hlen := (List.perm_insertionSort r l).length_eq
    rw [h] at hlen
    exact List.length_eq_zero.mp hlen.symm
  · intro h
    rw [h]
    rfl

/-- `getKey` after `setKey` at the written key returns the written value. -/
theorem getKey_setKey_same {β : Type} (m : List (String × β)) (k : String) (v : β) :
    getKey (setKey m k v) k = some v := by
  induction m with
  | nil => simp [setKey, getKey]
  | cons p rest ih =>
    obtain ⟨k1, v1⟩ := p
    by_cases h : k1 = k
    · subst h
      simp [setKey, getKey]
    · simp [setKey, getKey, h, ih]

/-- `getKey` after `setKey` at any other key is unchanged. -/
theorem getKey_setKey_other {β : Type} (m : List (String × β)) (k other : String)
    (v : β) (h : other ≠ k) :
    getKey (setKey m k v) other = getKey m other := by
  have hko : k ≠ other := fun e => h e.symm
  induction m with
  | nil => simp [setKey, getKey, hko]
  | cons p rest ih =>
    obtain ⟨k1, v1⟩ := p
    by_cases h1 : k1 = k
    · subst h1
      simp [setKey, getKey, hko]
    · simp [setKey, getKey, h1, ih]

/-- One pick slot counts the same with and without the non-emptiness guard
when the movie id itself is non-empty. -/
theorem slot_count_eq (s m : String) (hm : m ≠ ("")) (k : Nat) :
    (if s = m then k else 0) = (if s ≠ ("") ∧ s = m then k else 0) := by
  by_cases h : s = m
  · subst h
    simp [hm]
  · simp [h]

/-- For a non-empty movie id the RevealScreen boost equals the number of
non-empty slots naming the movie. -/
theorem boost_eq_namedSlotCount (votes : List (String × Vote)) (m : String)
    (hm : m ≠ ("")) : RevealScreen.boost votes m = namedSlotCount votes m := by
  unfold RevealScreen.boost namedSlotCount
  induction votes with
  | nil => rfl
  | cons p rest ih =>
    simp only [List.map_cons, List.sum_cons, ih]
    rw [slot_count_eq p.2.top_pick m hm 1, slot_count_eq p.2.second_pick m hm 1,
      slot_count_eq p.2.third_pick m hm 1]

/-- The head of a list, when present, is a member. -/
theorem mem_of_head?_eq_some {α : Type} {l : List α} {a : α}
    (h : l.head? = some a) : a ∈ l := by
  cases l with
  | nil => simp at h
  | cons x xs =>
    simp only [List.head?_cons, Option.some.injEq] at h
    rw [← h]
    exact List.mem_cons_self x xs

/-! ## Claim theorems: the cycle state machine -/

/-- C3: in status WAITING_FOR_DECISIONS the machine writes
GATHERING_NOMINATIONS if and only if at least 2 decisions are yes and at least
3 decisions (yes plus no) are in; in every other case — in particular when the
quorum of 3 is reached with fewer than 2 yes — it writes nothing. -/
theorem waiting_advance_characterization (c : DailyCycle)
    (h : c.current_status = CycleStatus.WAITING_FOR_DECISIONS) :
    UseDailyCycle.checkAndAdvanceStatus c =
      if 2 ≤ UseDailyCycle.yesCount c ∧ 3 ≤ c.decisions.length then
        some (UseDailyCycle.AdvanceWrite.statusOnly CycleStatus.GATHERING_NOMINATIONS)
      else none := by
  simp only [UseDailyCycle.checkAndAdvanceStatus, h]
  split_ifs <;> first | rfl | omega

/-- Witness for C3: a waiting cycle with decisions yes/yes/no satisfies the
hypothesis and the characterization. -/
theorem waiting_advance_characterization_witness :
    exCycleWaiting.current_status = CycleStatus.WAITING_FOR_DECISIONS ∧
    UseDailyCycle.checkAndAdvanceStatus exCycleWaiting =
      (if 2 ≤ UseDailyCycle.yesCount exCycleWaiting ∧ 3 ≤ exCycleWaiting.decisions.length then
        some (UseDailyCycle.AdvanceWrite.statusOnly CycleStatus.GATHERING_NOMINATIONS)
      else none) :=
  ⟨rfl, waiting_advance_characterization exCycleWaiting rfl⟩

/-- Counterexample to C4 as stated: with zero yes-decisions the nominator
count (0) reaches the yes-count (0), yet the machine writes nothing — the code
additionally requires a positive yes-count. -/
theorem nominations_zero_yes_counterexample :
    exCycleNomsZeroYes.current_status = CycleStatus.GATHERING_NOMINATIONS ∧
    UseDailyCycle.yesCount exCycleNomsZeroYes ≤ exCycleNomsZeroYes.nominations.length ∧
    UseDailyCycle.checkAndAdvanceStatus exCycleNomsZeroYes = none := by
  decide

/-- C4 (amended): in status GATHERING_NOMINATIONS the machine writes
GATHERING_VOTES exactly when the yes-decision count is positive and the number
of users present in the nominations map reaches the yes-count; otherwise it
writes nothing. -/
theorem nominations_advance_characterization (c : DailyCycle)
    (h : c.current_status = CycleStatus.GATHERING_NOMINATIONS) :
    UseDailyCycle.checkAndAdvanceStatus c =
      if 0 < UseDailyCycle.yesCount c ∧ UseDailyCycle.yesCount c ≤ c.nominations.length then
        some (UseDailyCycle.AdvanceWrite.statusOnly CycleStatus.GATHERING_VOTES)
      else none := by
  simp only [UseDailyCycle.checkAndAdvanceStatus, h]

/-- Witness for C4 (amended): one yes-decision and one submitted nomination
list satisfy the hypothesis and the characterization. -/
theorem nominations_advance_characterization_witness :
    exCycleNoms.current_status = CycleStatus.GATHERING_NOMINATIONS ∧
    UseDailyCycle.checkAndAdvanceStatus exCycleNoms =
      (if 0 < UseDailyCycle.yesCount exCycleNoms ∧
          UseDailyCycle.yesCount exCycleNoms ≤ exCycleNoms.nominations.length then
        some (UseDailyCycle.AdvanceWrite.statusOnly CycleStatus.GATHERING_VOTES)
      else none) :=
  ⟨rfl, nominations_advance_characterization exCycleNoms rfl⟩

/-- Counterexample to C5 as stated: with zero yes-decisions the voter count
(0) reaches the yes-count (0), yet the machine writes nothing — the code
additionally requires a positive yes-count. -/
theorem votes_zero_yes_counterexample :
    exCycleVotesZeroYes.current_status = CycleStatus.GATHERING_VOTES ∧
    UseDailyCycle.yesCount exCycleVotesZeroYes ≤ exCycleVotesZeroYes.votes.length ∧
    UseDailyCycle.checkAndAdvanceStatus exCycleVotesZeroYes = none := by
  decide

/-- C5 (amended): in status GATHERING_VOTES, exactly when the yes-decision
count is positive and the voter count reaches it, the machine computes the
winner synchronously and emits one single update carrying both
current_status = REVEAL and the winning_movie result; otherwise it writes
neither field. -/
theorem votes_advance_characterization (c : DailyCycle)
    (h : c.current_status = CycleStatus.GATHERING_VOTES) :
    UseDailyCycle.checkAndAdvanceStatus c =
      if 0 < UseDailyCycle.yesCount c ∧ UseDailyCycle.yesCount c ≤ c.votes.length then
        some (UseDailyCycle.AdvanceWrite.statusAndWinner CycleStatus.REVEAL (UseDailyCycle.calculateWinner c))
      else none := by
  simp only [UseDailyCycle.checkAndAdvanceStatus, h]

/-- Witness for C5 (amended): one yes-decision and one submitted vote satisfy
the hypothesis and the characterization. -/
theorem votes_advance_characterization_witness :
    exCycleVotes.current_status = CycleStatus.GATHERING_VOTES ∧
    UseDailyCycle.checkAndAdvanceStatus exCycleVotes =
      (if 0 < UseDailyCycle.yesCount exCycleVotes ∧
          UseDailyCycle.yesCount exCycleVotes ≤ exCycleVotes.votes.length then
        some (UseDailyCycle.AdvanceWrite.statusAndWinner CycleStatus.REVEAL
          (UseDailyCycle.calculateWinner exCycleVotes))
      else none) :=
  ⟨rfl, votes_advance_characterization exCycleVotes rfl⟩

/-! ## Claim theorems: the winner calculators -/

/-- C1: for every nominations map, votes map and shared pool, every candidate
movie (with a genuine, non-empty identifier) that resolves in the pool with
nomination_streak ≥ 5 scores its 3/2/1 ranked-pick points plus one extra point
for each non-empty pick slot across all voters that names it. -/
theorem underdog_boost_adds_vote_count (noms : List (String × List String))
    (votes : List (String × Vote)) (pool : List SharedMovie) (m : String)
    (mov : SharedMovie) (hc : m ∈ candidateIds noms) (hm : m ≠ (""))
    (hfind : findMovie pool m = some mov) (hstreak : 5 ≤ mov.nomination_streak) :
    RevealScreen.finalScore pool votes m = baseScore votes m + namedSlotCount votes m := by
  unfold RevealScreen.finalScore
  simp only [hfind]
  rw [if_pos hstreak, boost_eq_namedSlotCount votes m hm]

/-- Witness for C1 — the claim's scenario: a candidate with streak 5 receiving
exactly one top_pick vote scores 4 = 3 + 1 points. -/
theorem underdog_boost_adds_vote_count_witness :
    (("C") : String) ∈ candidateIds exNomsStreak ∧ (("C") : String) ≠ ("") ∧
    findMovie exPoolStreak ("C") =
      some { id := ("C"), runtime := 100, nomination_streak := 5 } ∧
    5 ≤ (5 : Nat) ∧
    RevealScreen.finalScore exPoolStreak exVotesStreak ("C") =
      baseScore exVotesStreak ("C") + namedSlotCount exVotesStreak ("C") ∧
    RevealScreen.finalScore exPoolStreak exVotesStreak ("C") = 4 ∧
    baseScore exVotesStreak ("C") = 3 :=
  ⟨by decide, by decide, by decide, by decide,
    underdog_boost_adds_vote_count exNomsStreak exVotesStreak exPoolStreak ("C")
      { id := ("C"), runtime := 100, nomination_streak := 5 }
      (by decide) (by decide) (by decide) (by decide),
    by decide, by decide⟩

/-- C2: the RevealScreen ranking places, among equal scores, the shorter
runtime first; every ranked entry resolves in the shared pool (a candidate
whose record is missing is excluded, hence never ranked above a resolvable
one); and on the tie scenario (both score 5, runtimes 90 vs 120) the winner
is A. -/
theorem tiebreak_shorter_runtime_first (noms : List (String × List String))
    (votes : List (String × Vote)) (pool : List SharedMovie) :
    (RevealScreen.rankedCandidates noms votes pool).Pairwise
      (fun a b => a.score = b.score → a.movie.runtime ≤ b.movie.runtime) ∧
    (RevealScreen.rankedCandidates noms votes pool).all
      (fun it => (findMovie pool it.movie_id).isSome) = true ∧
    RevealScreen.calculateWinner exNomsTie exVotesTie exPoolTie =
      some { movie_id := ("A"), score := 5,
             movie := { id := ("A"), runtime := 90, nomination_streak := 0 } } := by
  refine ⟨?_, ?_, by decide⟩
  · have hs : List.Pairwise rsLe (RevealScreen.rankedCandidates noms votes pool) :=
      List.sorted_insertionSort rsLe (RevealScreen.items noms votes pool)
    refine hs.imp ?_
    intro a b hab heq
    unfold rsLe rsCmp at hab
    rw [if_neg (not_ne_iff.mpr heq)] at hab
    omega
  · rw [List.all_eq_true]
    intro it hit
    have hmem : it ∈ RevealScreen.items noms votes pool :=
      ((List.perm_insertionSort rsLe (RevealScreen.items noms votes pool)).mem_iff).mp hit
    obtain ⟨mid, hmid, hf⟩ := List.mem_filterMap.mp hmem
    obtain ⟨mov, hfind, hmk⟩ := Option.map_eq_some'.mp hf
    cases hmk
    simp [hfind]

/-- C7: the useDailyCycle winner calculator returns null exactly when the
union of all nominated movie ids is empty, and the schedule calculator returns
null whenever no winning movie is set; both are total functions, so neither
can raise. -/
theorem winner_null_iff_no_candidates (c : DailyCycle) (pool : List SharedMovie)
    (today : Nat) :
    (UseDailyCycle.calculateWinner c = none ↔ allNominations c.nominations = []) ∧
    DashboardScreen.calculateSchedule { c with winning_movie := none } pool today = none := by
  constructor
  · unfold UseDailyCycle.calculateWinner
    rw [List.head?_eq_none_iff, insertionSort_eq_nil_iff, List.map_eq_nil_iff]
    unfold candidateIds
    rw [dedupFirst_eq_nil_iff]
  · rfl

/-- C9: a non-null winner from the useDailyCycle calculator is always one of
the nominated movie ids — picks naming ids outside the candidate set can never
be returned. -/
theorem winner_among_nominated (c : DailyCycle) (w : WinningMovie)
    (h : UseDailyCycle.calculateWinner c = some w) :
    w.movie_id ∈ allNominations c.nominations := by
  unfold UseDailyCycle.calculateWinner at h
  have hmem := mem_of_head?_eq_some h
  rw [List.mem_insertionSort] at hmem
  obtain ⟨mid, hmid, heq⟩ := List.mem_map.mp hmem
  have hid : w.movie_id = mid := by rw [← heq]
  rw [hid]
  unfold candidateIds at hmid
  exact (mem_dedupFirst _ _).mp hmid

/-- Witness for C9: on a concrete cycle the winner is A with score 3, and A is
among the nominated ids. -/
theorem winner_among_nominated_witness :
    UseDailyCycle.calculateWinner exCycleVotes = some { movie_id := ("A"), score := 3 } ∧
    ({ movie_id := ("A"), score := 3 } : WinningMovie).movie_id ∈
      allNominations exCycleVotes.nominations :=
  ⟨by decide,
    winner_among_nominated exCycleVotes { movie_id := ("A"), score := 3 } (by decide)⟩

/-! ## Claim theorems: the schedule calculator -/

/-- C6: with a winning movie set that resolves in the pool to a positive
runtime r and a finish-by clock time HH:MM, the schedule has floor(r/40)
breaks totalling 15·floor(r/40) minutes, a finish at today's HH:MM rolled to
the next calendar day exactly when HH < 12, and a start earlier than the
finish by the total event duration r + 15·floor(r/40). -/
theorem schedule_formula (c : DailyCycle) (pool : List SharedMovie) (today : Nat)
    (w : WinningMovie) (mov : SharedMovie)
    (hr : 0 < mov.runtime)
    (hh : c.schedule_settings.finish_by_hour < 24)
    (hmin : c.schedule_settings.finish_by_min < 60)
    (hw : c.winning_movie = some w)
    (hfind : findMovie pool w.movie_id = some mov) :
    DashboardScreen.calculateSchedule c pool today =
      some { startTime :=
               ((if c.schedule_settings.finish_by_hour < 12 then (today : Int) + 1
                 else (today : Int)) * 1440 +
                 (c.schedule_settings.finish_by_hour : Int) * 60 +
                 (c.schedule_settings.finish_by_min : Int)) -
               ((mov.runtime : Int) + ((mov.runtime / 40 : Nat) : Int) * 15),
             finishTime :=
               (if c.schedule_settings.finish_by_hour < 12 then (today : Int) + 1
                 else (today : Int)) * 1440 +
                 (c.schedule_settings.finish_by_hour : Int) * 60 +
                 (c.schedule_settings.finish_by_min : Int),
             totalBreaks := mov.runtime / 40,
             totalBreakTime := (mov.runtime / 40) * 15,
             totalRuntime := mov.runtime } := by
  unfold DashboardScreen.calculateSchedule
  rw [hw]
  simp only [hfind, Option.some.injEq, ScheduleResult.mk.injEq]
  refine ⟨?_, ?_, trivial, trivial, trivial⟩ <;> split_ifs <;> push_cast <;> ring

/-- Witness for C6 — the claim's scenario: runtime 130 and finish-by 03:30
give 3 breaks, 45 break minutes, a 175-minute event finishing next day at
03:30 (minute 1650 from midnight of day 0) and starting at minute 1475. -/
theorem schedule_formula_witness :
    0 < (130 : Nat) ∧
    exCycleSchedule.schedule_settings.finish_by_hour < 24 ∧
    exCycleSchedule.schedule_settings.finish_by_min < 60 ∧
    exCycleSchedule.winning_movie = some { movie_id := ("W"), score := 5 } ∧
    findMovie exPoolSchedule ("W") =
      some { id := ("W"), runtime := 130, nomination_streak := 0 } ∧
    DashboardScreen.calculateSchedule exCycleSchedule exPoolSchedule 0 =
      some { startTime := 1475, finishTime := 1650, totalBreaks := 3,
             totalBreakTime := 45, totalRuntime := 130 } := by
  refine ⟨by decide, by decide, by decide, by decide, by decide, ?_⟩
  rw [schedule_formula exCycleSchedule exPoolSchedule 0
      { movie_id := ("W"), score := 5 }
      { id := ("W"), runtime := 130, nomination_streak := 0 }
      (by decide) (by decide) (by decide) (by decide) (by decide)]
  decide

/-! ## Claim theorems: vote validation and the participation operations -/

/-- C8: a vote submission whose non-empty picks are not pairwise distinct is
rejected before any write: handleSubmitVote returns an error, never reaching
submitVote, so no votes field is written and the cycle is unchanged. -/
theorem duplicate_picks_rejected (nominatedCount : Nat) (userId : String)
    (v : Vote) (c : DailyCycle)
    (h : ¬ ([v.top_pick, v.second_pick, v.third_pick].filter
        (fun s => s != (""))).Nodup) :
    isErr (VotingScreen.handleSubmitVote nominatedCount userId v c) = true := by
  simp only [VotingScreen.handleSubmitVote]
  set picks := [v.top_pick, v.second_pick, v.third_pick].filter (fun s => s != (""))
    with hp
  split_ifs with h1 h2
  · rfl
  · rfl
  · exfalso
    apply h
    show picks.Nodup
    have hlen : picks.dedup.length = picks.length := not_ne_iff.mp h2
    have heq : picks.dedup = picks := (List.dedup_sublist picks).eq_of_length hlen
    rw [← heq]
    exact List.nodup_dedup picks

/-- Witness for C8: a submission naming the same movie as top and second pick
is rejected. -/
theorem duplicate_picks_rejected_witness :
    ¬ ([exDupVote.top_pick, exDupVote.second_pick, exDupVote.third_pick].filter
        (fun s => s != (""))).Nodup ∧
    isErr (VotingScreen.handleSubmitVote 2 ("u1") exDupVote exCycleMaps) = true :=
  ⟨by decide, duplicate_picks_rejected 2 ("u1") exDupVote exCycleMaps (by decide)⟩

/-- C10: each participation operation writes only its own user's entry of its
own map — the user's entry is overwritten (last write wins), while every other
user's entry of that map, the other maps, current_status, winning_movie and
schedule_settings are unchanged. -/
theorem participation_ops_frame (c : DailyCycle) (userId other : String)
    (d : Bool) (movieIds : List String) (v : Vote) (hne : other ≠ userId) :
    ((UseDailyCycle.makeDecision userId d c).current_status = c.current_status ∧
     (UseDailyCycle.makeDecision userId d c).nominations = c.nominations ∧
     (UseDailyCycle.makeDecision userId d c).votes = c.votes ∧
     (UseDailyCycle.makeDecision userId d c).winning_movie = c.winning_movie ∧
     (UseDailyCycle.makeDecision userId d c).schedule_settings = c.schedule_settings ∧
     getKey (UseDailyCycle.makeDecision userId d c).decisions userId = some d ∧
     getKey (UseDailyCycle.makeDecision userId d c).decisions other =
       getKey c.decisions other) ∧
    ((UseDailyCycle.submitNominations userId movieIds c).current_status = c.current_status ∧
     (UseDailyCycle.submitNominations userId movieIds c).decisions = c.decisions ∧
     (UseDailyCycle.submitNominations userId movieIds c).votes = c.votes ∧
     (UseDailyCycle.submitNominations userId movieIds c).winning_movie = c.winning_movie ∧
     (UseDailyCycle.submitNominations userId movieIds c).schedule_settings =
       c.schedule_settings ∧
     getKey (UseDailyCycle.submitNominations userId movieIds c).nominations userId =
       some movieIds ∧
     getKey (UseDailyCycle.submitNominations userId movieIds c).nominations other =
       getKey c.nominations other) ∧
    ((UseDailyCycle.submitVote userId v c).current_status = c.current_status ∧
     (UseDailyCycle.submitVote userId v c).decisions = c.decisions ∧
     (UseDailyCycle.submitVote userId v c).nominations = c.nominations ∧
     (UseDailyCycle.submitVote userId v c).winning_movie = c.winning_movie ∧
     (UseDailyCycle.submitVote userId v c).schedule_settings = c.schedule_settings ∧
     getKey (UseDailyCycle.submitVote userId v c).votes userId = some v ∧
     getKey (UseDailyCycle.submitVote userId v c).votes other = getKey c.votes other) :=
  ⟨⟨rfl, rfl, rfl, rfl, rfl, getKey_setKey_same _ _ _,
      getKey_setKey_other _ _ _ _ hne⟩,
   ⟨rfl, rfl, rfl, rfl, rfl, getKey_setKey_same _ _ _,
      getKey_setKey_other _ _ _ _ hne⟩,
   ⟨rfl, rfl, rfl, rfl, rfl, getKey_setKey_same _ _ _,
      getKey_setKey_other _ _ _ _ hne⟩⟩

/-- Witness for C10: on a concrete cycle, user u1 writing a decision, a
nomination list and a vote touches only the u1 entry of the respective map,
and u2's entries survive. -/
theorem participation_ops_frame_witness :
    (("u2") : String) ≠ ("u1") ∧
    (((UseDailyCycle.makeDecision ("u1") false exCycleMaps).current_status =
        exCycleMaps.current_status ∧
      (UseDailyCycle.makeDecision ("u1") false exCycleMaps).nominations =
        exCycleMaps.nominations ∧
      (UseDailyCycle.makeDecision ("u1") false exCycleMaps).votes = exCycleMaps.votes ∧
      (UseDailyCycle.makeDecision ("u1") false exCycleMaps).winning_movie =
        exCycleMaps.winning_movie ∧
      (UseDailyCycle.makeDecision ("u1") false exCycleMaps).schedule_settings =
        exCycleMaps.schedule_settings ∧
      getKey (UseDailyCycle.makeDecision ("u1") false exCycleMaps).decisions ("u1") =
        some false ∧
      getKey (UseDailyCycle.makeDecision ("u1") false exCycleMaps).decisions ("u2") =
        getKey exCycleMaps.decisions ("u2")) ∧
     ((UseDailyCycle.submitNominations ("u1") [("C")] exCycleMaps).current_status =
        exCycleMaps.current_status ∧
      (UseDailyCycle.submitNominations ("u1") [("C")] exCycleMaps).decisions =
        exCycleMaps.decisions ∧
      (UseDailyCycle.submitNominations ("u1") [("C")] exCycleMaps).votes =
        exCycleMaps.votes ∧
      (UseDailyCycle.submitNominations ("u1") [("C")] exCycleMaps).winning_movie =
        exCycleMaps.winning_movie ∧
      (UseDailyCycle.submitNominations ("u1") [("C")] exCycleMaps).schedule_settings =
        exCycleMaps.schedule_settings ∧
      getKey (UseDailyCycle.submitNominations ("u1") [("C")] exCycleMaps).nominations
        ("u1") = some [("C")] ∧
      getKey (UseDailyCycle.submitNominations ("u1") [("C")] exCycleMaps).nominations
        ("u2") = getKey exCycleMaps.nominations ("u2")) ∧
     ((UseDailyCycle.submitVote ("u1") exVoteABC exCycleMaps).current_status =
        exCycleMaps.current_status ∧
      (UseDailyCycle.submitVote ("u1") exVoteABC exCycleMaps).decisions =
        exCycleMaps.decisions ∧
      (UseDailyCycle.submitVote ("u1") exVoteABC exCycleMaps).nominations =
        exCycleMaps.nominations ∧
      (UseDailyCycle.submitVote ("u1") exVoteABC exCycleMaps).winning_movie =
        exCycleMaps.winning_movie ∧
      (UseDailyCycle.submitVote ("u1") exVoteABC exCycleMaps).schedule_settings =
        exCycleMaps.schedule_settings ∧
      getKey (UseDailyCycle.submitVote ("u1") exVoteABC exCycleMaps).votes ("u1") =
        some exVoteABC ∧
      getKey (UseDailyCycle.submitVote ("u1") exVoteABC exCycleMaps).votes ("u2") =
        getKey exCycleMaps.votes ("u2"))) :=
  ⟨by decide,
    participation_ops_frame exCycleMaps ("u1") ("u2") false [("C")] exVoteABC (by decide)⟩
